import Mathlib

/-!
Shallow embedding of `local_ai_agent.py` (class `LocalAIAgent` and the console
loop of `main`).  Python strings are modelled as `List Char`; the filesystem,
the language model, the weather HTTP capability and the speech recognizer are
oracles passed in as functions; the persisted context file is modelled as an
explicit `PersistedFile` state threaded through the operations.
-/

/-- Python strings, modelled as lists of characters. -/
abbrev Str := List Char

/-- The whitespace test of Python's `str.strip` (ASCII whitespace). -/
def isPySpace (c : Char) : Bool :=
  c == ' ' || c == '\t' || c == '\n' || c == '\r' || c == Char.ofNat 11 || c == Char.ofNat 12

/-- Python `s.lstrip()`: drop leading whitespace. -/
def pyLstrip (s : Str) : Str := s.dropWhile isPySpace

/-- Python `s.rstrip()`: drop trailing whitespace. -/
def pyRstrip (s : Str) : Str := (s.reverse.dropWhile isPySpace).reverse

/-- Python `s.strip()`: drop leading and trailing whitespace. -/
def pyStrip (s : Str) : Str := pyRstrip (pyLstrip s)

/-- Python slice `l[-n:]`: the last `min n l.length` elements, in order. -/
def pySliceLast (n : Nat) (l : List α) : List α := l.drop (l.length - n)

/-- Python `s.lower()` on the ASCII range (all inputs compared against are ASCII). -/
def pyLower (s : Str) : Str := s.map Char.toLower

/-- State of the durable context file (`context.json`): absent, present but not
valid JSON (so `json.load` raises), or a valid JSON list of strings. -/
inductive PersistedFile
  | absent
  | corrupt
  | valid (entries : List Str)

/-- `load_context` (lines 30–35): if the file exists, `json.load` it — which
raises on a corrupt file, there is no exception handler — else return `[]`.
The raised exception is modelled as `Except.error`. -/
def load_context : PersistedFile → Except Str (List Str)
  | .absent => .ok []
  | .corrupt => .error ("json.JSONDecodeError".data)
  | .valid entries => .ok entries

/-- `save_context` (lines 37–40): write `json.dump(self.context[-10:], f)`,
replacing the file's whole previous content. -/
def save_context (context : List Str) : PersistedFile :=
  .valid (pySliceLast 10 context)

/-- The sampling parameters handed to `model.generate` (lines 54–61). -/
structure GenParams where
  max_length : Nat
  temperature : ℚ
  top_k : Nat
  top_p : ℚ
  do_sample : Bool
deriving DecidableEq

/-- The fixed parameters of the `model.generate` call: `max_length` from the
caller, `temperature=0.7`, `top_k=50`, `top_p=0.95`, `do_sample=True`. -/
def genParams (max_length : Nat) : GenParams :=
  ⟨max_length, 7/10, 50, 95/100, true⟩

/-- The default of `generate_response`'s `max_length` parameter (line 42). -/
def default_max_length : Nat := 200

/-- The model-inference capability: tokenize + generate + decode, abstracted as
a function from sampling parameters and the prompt text to the decoded text. -/
abbrev InferenceOracle := GenParams → Str → Str

/-- The agent's mutable state: the in-memory conversation context
(`self.context`) and the durable context file (`self.context_file`'s content). -/
structure AgentState where
  context : List Str
  persisted : PersistedFile

/-- Line 51: `"\n".join(self.context[-10:])`, the prompt rendering of the
context (spec §4.1 `render_for_prompt`). -/
def render_for_prompt (context : List Str) : Str :=
  List.intercalate ("\n".data) (pySliceLast 10 context)

/-- `generate_response` (lines 42–66): append `"You: " + prompt`, render the
last 10 entries, call the model with the fixed sampling parameters, append
`"AI: " + response`, save the context, return the response. -/
def generate_response (model : InferenceOracle) (st : AgentState)
    (prompt : Str) (max_length : Nat) : AgentState × Str :=
  let context1 := st.context ++ ["You: ".data ++ prompt]
  let full_context := render_for_prompt context1
  let response := model (genParams max_length) full_context
  let context2 := context1 ++ ["AI: ".data ++ response]
  (⟨context2, save_context context2⟩, response)

/-- The filesystem seen by `summarize_file`: a path resolves either to the text
content of a readable file, or to nothing (`os.path.exists` false). -/
abbrev FileSystem := Str → Option Str

/-- `summarize_file` (lines 100–106): `"File '<path>' not found."` when the
path does not resolve, else `"Summary: " + content[:200] + "..."`. -/
def summarize_file (fs : FileSystem) (file_path : Str) : Str :=
  match fs file_path with
  | none => "File '".data ++ file_path ++ "' not found.".data
  | some content => "Summary: ".data ++ content.take 200 ++ "...".data

/-- The JSON shape `get_weather` reads from a 200 response: a weather
description and a rendered temperature. -/
structure WeatherJson where
  description : Str
  temp : Str

/-- An HTTP response as `get_weather` consumes it: status code plus the parsed
body fields. -/
structure HttpResponse where
  status_code : Nat
  json : WeatherJson

/-- The weather HTTP capability: `requests.get`, abstracted as URL ↦ response. -/
abbrev WeatherOracle := Str → HttpResponse

/-- The hard-coded API key placeholder (line 110). -/
def api_key : Str := "your_openweather_api_key".data

/-- Line 111: the request URL, with the location interpolated unescaped. -/
def weatherUrl (location : Str) : Str :=
  "https://api.openweathermap.org/data/2.5/weather?q=".data ++ location
    ++ "&appid=".data ++ api_key ++ "&units=metric".data

/-- The fixed failure message of `get_weather` (line 116). -/
def weatherFailureMsg : Str :=
  "Unable to fetch weather data. Please check the location.".data

/-- `get_weather` (lines 108–116): on status 200, format description and
temperature; on anything else, the fixed generic failure message. -/
def get_weather (fetch : WeatherOracle) (location : Str) : Str :=
  let response := fetch (weatherUrl location)
  if response.status_code = 200 then
    "Weather in ".data ++ location ++ ": ".data ++ response.json.description
      ++ ", ".data ++ response.json.temp ++ "Â°C".data
  else
    weatherFailureMsg

/-- The task kinds of spec §3 (`TaskRequest`). -/
inductive TaskKind
  | summarize
  | draft_email
  | get_weather
  | unrecognized
deriving DecidableEq

/-- A routed task: kind plus the raw argument string. -/
structure TaskRequest where
  kind : TaskKind
  arg : Str
deriving DecidableEq

/-- The routing half of `perform_task` (lines 86–98): the if/elif prefix
chain, in source order, anchored at position 0 (`str.startswith`).  For
`summarize` the source applies `.strip()` to the suffix (line 90); for the
other two kinds the raw suffix is used (lines 92, 95). -/
def routeTask (task : Str) : TaskRequest :=
  if ("summarize ".data).isPrefixOf task then
    ⟨.summarize, pyStrip (task.drop ("summarize ".data).length)⟩
  else if ("draft email ".data).isPrefixOf task then
    ⟨.draft_email, task.drop ("draft email ".data).length⟩
  else if ("get weather ".data).isPrefixOf task then
    ⟨.get_weather, task.drop ("get weather ".data).length⟩
  else
    ⟨.unrecognized, []⟩

/-- The canned message for an unrecognized task (line 98). -/
def unrecognizedMsg : Str := "Task not recognized. Please try again.".data

/-- The dispatch half of `perform_task` (lines 86–98): each kind's executor. -/
def dispatchTask (fs : FileSystem) (fetch : WeatherOracle) : TaskRequest → Str
  | ⟨.summarize, a⟩ => summarize_file fs a
  | ⟨.draft_email, a⟩ => "Drafting an email based on your input: ".data ++ a
  | ⟨.get_weather, a⟩ => get_weather fetch a
  | ⟨.unrecognized, _⟩ => unrecognizedMsg

/-- `perform_task` (lines 86–98) = route, then dispatch.  It never touches
`self.context` or the context file. -/
def perform_task (fs : FileSystem) (fetch : WeatherOracle) (task : Str) : Str :=
  dispatchTask fs fetch (routeTask task)

/-- What one console-loop iteration produces besides the new state. -/
inductive TurnOutput
  | exitSession
  | silent
  | taskOutput (text : Str)
  | chatOutput (text : Str)
deriving DecidableEq

/-- One iteration of the console loop in `main` (lines 161–176): check for
`exit`, substitute voice input for the literal input `voice`, skip empty
input, route `task: `-marked input to `perform_task` (state untouched), and
send everything else through `generate_response`. -/
def console_turn (model : InferenceOracle) (fs : FileSystem) (fetch : WeatherOracle)
    (speech : Str) (st : AgentState) (input0 : Str) : AgentState × TurnOutput :=
  if pyLower input0 = "exit".data then
    (st, .exitSession)
  else
    let user_input := if pyLower input0 = "voice".data then speech else input0
    if user_input = [] then
      (st, .silent)
    else if ("task: ".data).isPrefixOf user_input then
      (st, .taskOutput (perform_task fs fetch (user_input.drop 6)))
    else
      let r := generate_response model st user_input default_max_length
      (r.1, .chatOutput r.2)

/-- A session fragment of chat turns only: fold `generate_response` (with the
default `max_length`) over a list of prompts. -/
def run_chat_turns (model : InferenceOracle) (st : AgentState) (prompts : List Str) : AgentState :=
  prompts.foldl (fun s p => (generate_response model s p default_max_length).1) st

/-- A fixed inference oracle for concrete evaluations: always answers `ok`. -/
def modelConst : InferenceOracle := fun _ _ => "ok".data

/-- A fixed weather oracle for concrete evaluations: always status 404. -/
def fetch404 : WeatherOracle := fun _ => ⟨404, ⟨"x".data, "y".data⟩⟩

/-- A 50-character file content used in concrete evaluations. -/
def content50 : Str := List.replicate 50 'a'

/-- A fixed filesystem for concrete evaluations: exactly one readable file. -/
def fsOne : FileSystem := fun p => if p = "f.txt".data then some content50 else none

lemma pySliceLast_length (n : Nat) (l : List α) :
    (pySliceLast n l).length = min n l.length := by
  simp [pySliceLast]
  omega

lemma pySliceLast_suffix (n : Nat) (l : List α) : pySliceLast n l <:+ l :=
  List.drop_suffix _ _

lemma pySliceLast_of_le {n : Nat} {l : List α} (h : l.length ≤ n) :
    pySliceLast n l = l := by
  unfold pySliceLast
  rw [Nat.sub_eq_zero_of_le h, List.drop_zero]

lemma isPrefixOf_excl {a b s : Str} (hab : a.isPrefixOf b = false)
    (hba : b.isPrefixOf a = false) (ha : a.isPrefixOf s = true) :
    b.isPrefixOf s = false := by
  by_contra hb
  rw [Bool.not_eq_false] at hb
  rw [ List.isPrefixOf_iff_prefix] at ha hb
  rcases List.prefix_or_prefix_of_prefix ha hb with h1 | h1
  · rw [← List.isPrefixOf_iff_prefix] at h1
    rw [h1] at hab
    exact Bool.noConfusion hab
  · rw [← List.isPrefixOf_iff_prefix] at h1
    rw [h1] at hba
    exact Bool.noConfusion hba

lemma not_summarize_of_draft {s : Str}
    (h : ("draft email ".data).isPrefixOf s = true) :
    ("summarize ".data).isPrefixOf s = false :=
  isPrefixOf_excl (by decide) (by decide) h

lemma not_summarize_of_weather {s : Str}
    (h : ("get weather ".data).isPrefixOf s = true) :
    ("summarize ".data).isPrefixOf s = false :=
  isPrefixOf_excl (by decide) (by decide) h

lemma not_draft_of_weather {s : Str}
    (h : ("get weather ".data).isPrefixOf s = true) :
    ("draft email ".data).isPrefixOf s = false :=
  isPrefixOf_excl (by decide) (by decide) h

lemma run_chat_turns_nil (model : InferenceOracle) (st : AgentState) :
    run_chat_turns model st [] = st := rfl

lemma run_chat_turns_cons (model : InferenceOracle) (st : AgentState) (p : Str) (ps : List Str) :
    run_chat_turns model st (p :: ps)
      = run_chat_turns model (generate_response model st p default_max_length).1 ps := rfl

lemma generate_response_step_context (model : InferenceOracle) (st : AgentState) (p : Str) (n : Nat) :
    (generate_response model st p n).1.context
      = (st.context ++ ["You: ".data ++ p])
        ++ ["AI: ".data ++ (generate_response model st p n).2] := rfl

lemma generate_response_step_length (model : InferenceOracle) (st : AgentState) (p : Str) (n : Nat) :
    (generate_response model st p n).1.context.length = st.context.length + 2 := by
  rw [generate_response_step_context]
  simp

lemma generate_response_step_persisted (model : InferenceOracle) (st : AgentState) (p : Str) (n : Nat) :
    (generate_response model st p n).1.persisted
      = save_context ((generate_response model st p n).1.context) := rfl

lemma run_chat_turns_length (model : InferenceOracle) (prompts : List Str) :
    ∀ st : AgentState,
      (run_chat_turns model st prompts).context.length
        = st.context.length + 2 * prompts.length := by
  induction prompts with
  | nil =>
      intro st
      rw [run_chat_turns_nil]
      simp
  | cons p ps ih =>
      intro st
      rw [run_chat_turns_cons, ih, generate_response_step_length]
      simp [List.length_cons]
      omega

lemma run_chat_turns_persisted (model : InferenceOracle) (ps : List Str) :
    ∀ (p : Str) (st : AgentState),
      (run_chat_turns model st (p :: ps)).persisted
        = save_context ((run_chat_turns model st (p :: ps)).context) := by
  induction ps with
  | nil =>
      intro p st
      exact generate_response_step_persisted model st p default_max_length
  | cons q qs ih =>
      intro p st
      rw [run_chat_turns_cons]
      exact ih q _

/-- C1: the Task Router applies exact-prefix tests in the fixed priority
order `"summarize "`, `"draft email "`, `"get weather "`, anchored at
position 0; the first matching prefix wins; an input matching no prefix
yields the unrecognized kind and the canned message.  `"summarize notes.txt"`
routes to `summarize` with argument `"notes.txt"`, while
`"please summarize notes.txt"` routes to unrecognized because the prefix is
not at position 0. -/
theorem task_router_contract :
    routeTask ("summarize notes.txt".data) = ⟨.summarize, "notes.txt".data⟩
  ∧ routeTask ("please summarize notes.txt".data) = ⟨.unrecognized, []⟩
  ∧ (∀ fs fetch, perform_task fs fetch ("please summarize notes.txt".data) = unrecognizedMsg)
  ∧ (∀ s : Str, ("summarize ".data).isPrefixOf s = true → (routeTask s).kind = .summarize)
  ∧ (∀ s : Str, ("draft email ".data).isPrefixOf s = true → (routeTask s).kind = .draft_email)
  ∧ (∀ s : Str, ("get weather ".data).isPrefixOf s = true → (routeTask s).kind = .get_weather)
  ∧ (∀ s : Str, ("summarize ".data).isPrefixOf s = false →
      ("draft email ".data).isPrefixOf s = false →
      ("get weather ".data).isPrefixOf s = false →
      routeTask s = ⟨.unrecognized, []⟩
        ∧ ∀ fs fetch, perform_task fs fetch s = unrecognizedMsg) := by
  refine ⟨by decide, by decide, fun fs fetch => rfl, ?_, ?_, ?_, ?_⟩
  · intro s h
    simp [routeTask, h]
  · intro s h
    simp [routeTask, h, not_summarize_of_draft h]
  · intro s h
    simp [routeTask, h, not_summarize_of_weather h, not_draft_of_weather h]
  · intro s h1 h2 h3
    refine ⟨by simp [routeTask, h1, h2, h3], fun fs fetch => ?_⟩
    simp [perform_task, routeTask, dispatchTask, h1, h2, h3]

/-- Witness for `task_router_contract` at concrete inputs. -/
theorem task_router_contract_witness :
    (routeTask ("draft email hello".data)).kind = .draft_email
  ∧ routeTask ("hello".data) = ⟨.unrecognized, []⟩ :=
  ⟨task_router_contract.2.2.2.2.1 ("draft email hello".data) (by decide),
   (task_router_contract.2.2.2.2.2.2 ("hello".data) (by decide) (by decide) (by decide)).1⟩

/-- Modelled from the words of claim C9 (not from the source): a router whose
argument is always the suffix after the matched prefix, trimmed of leading
whitespace only, uniformly for all three task kinds. -/
def routeTaskClaimC9 (task : Str) : TaskRequest :=
  if ("summarize ".data).isPrefixOf task then
    ⟨.summarize, pyLstrip (task.drop ("summarize ".data).length)⟩
  else if ("draft email ".data).isPrefixOf task then
    ⟨.draft_email, pyLstrip (task.drop ("draft email ".data).length)⟩
  else if ("get weather ".data).isPrefixOf task then
    ⟨.get_weather, pyLstrip (task.drop ("get weather ".data).length)⟩
  else
    ⟨.unrecognized, []⟩

/-- C9 counterexample: the code's router disagrees with the claim's
leading-trim-only description.  For `"summarize a.txt "` the code strips the
trailing whitespace too; for `"draft email  hi"` the code keeps the leading
whitespace of the suffix. -/
theorem router_arg_trim_cex :
    (routeTask ("summarize a.txt ".data)).arg ≠ (routeTaskClaimC9 ("summarize a.txt ".data)).arg
  ∧ (routeTask ("draft email  hi".data)).arg ≠ (routeTaskClaimC9 ("draft email  hi".data)).arg
  ∧ (routeTask ("summarize a.txt ".data)).arg = "a.txt".data
  ∧ (routeTaskClaimC9 ("summarize a.txt ".data)).arg = "a.txt ".data
  ∧ (routeTask ("draft email  hi".data)).arg = " hi".data
  ∧ (routeTaskClaimC9 ("draft email  hi".data)).arg = "hi".data := by
  refine ⟨by decide, by decide, by decide, by decide, by decide, by decide⟩

/-- C9 amended: for `summarize` the argument is the suffix stripped of both
leading and trailing whitespace (Python `.strip()`); for `draft_email` and
`get_weather` the argument is the raw suffix, with no trimming at all. -/
theorem router_arg_trim_amended (s : Str) :
    (("summarize ".data).isPrefixOf s = true →
        (routeTask s).arg = pyStrip (s.drop 10))
  ∧ (("draft email ".data).isPrefixOf s = true →
        (routeTask s).arg = s.drop 12)
  ∧ (("get weather ".data).isPrefixOf s = true →
        (routeTask s).arg = s.drop 12) := by
  refine ⟨?_, ?_, ?_⟩
  · intro h
    simp [routeTask, h]
  · intro h
    simp [routeTask, h, not_summarize_of_draft h]
  · intro h
    simp [routeTask, h, not_summarize_of_weather h, not_draft_of_weather h]

/-- Witness for `router_arg_trim_amended` at concrete inputs. -/
theorem router_arg_trim_amended_witness :
    (routeTask ("summarize  n.txt ".data)).arg = pyStrip (List.drop 10 ("summarize  n.txt ".data))
  ∧ (routeTask ("get weather  NYC".data)).arg = List.drop 12 ("get weather  NYC".data) :=
  ⟨(router_arg_trim_amended ("summarize  n.txt ".data)).1 (by decide),
   (router_arg_trim_amended ("get weather  NYC".data)).2.2 (by decide)⟩

/-- C10: `load_context` does not enforce the 10-entry bound — a valid
persisted list of any length (e.g. 12 entries) is returned in full and
unmodified; truncation to 10 happens only in `save_context` and in
`render_for_prompt`. -/
theorem load_no_truncation (entries : List Str) :
    load_context (.valid entries) = .ok entries
  ∧ save_context entries = .valid (pySliceLast 10 entries)
  ∧ (pySliceLast 10 entries).length ≤ 10
  ∧ render_for_prompt entries = List.intercalate ("\n".data) (pySliceLast 10 entries)
  ∧ load_context (.valid (List.replicate 12 ("x".data))) = .ok (List.replicate 12 ("x".data))
  ∧ (List.replicate 12 ("x".data) : List Str).length = 12 := by
  refine ⟨rfl, rfl, ?_, rfl, rfl, by decide⟩
  rw [pySliceLast_length]
  omega

/-- C5 counterexample: a persisted file that exists but is unreadable/corrupt
makes `load_context` raise (`json.load` has no exception handler), so load
does not fail open in that case. -/
theorem load_corrupt_raises_cex :
    (load_context PersistedFile.corrupt).isOk = false
  ∧ load_context PersistedFile.corrupt = .error ("json.JSONDecodeError".data) :=
  ⟨rfl, rfl⟩

/-- C5 amended: `load_context` fails open only for a missing file (returning
the empty context); an existing valid file is parsed and returned, and an
existing unreadable/corrupt file raises to the caller. -/
theorem load_fail_open_amended :
    load_context .absent = .ok []
  ∧ (∀ entries, load_context (.valid entries) = .ok entries)
  ∧ (∀ e : PersistedFile, (load_context e).isOk = false ↔ e = .corrupt) := by
  refine ⟨rfl, fun entries => rfl, fun e => ?_⟩
  cases e <;> simp [load_context, Except.isOk, Except.toBool]

/-- C6: whenever the weather capability answers with a non-200 status,
`get_weather` returns the fixed generic failure message — no exception, and
neither the status nor the body appears in the result. -/
theorem weather_failure_generic (fetch : WeatherOracle) (location : Str)
    (h : (fetch (weatherUrl location)).status_code ≠ 200) :
    get_weather fetch location = weatherFailureMsg
  ∧ weatherFailureMsg = "Unable to fetch weather data. Please check the location.".data := by
  refine ⟨?_, rfl⟩
  simp [get_weather, h]

/-- Witness for `weather_failure_generic` with a simulated 404 response. -/
theorem weather_failure_generic_witness :
    get_weather fetch404 ("Paris".data) = weatherFailureMsg :=
  (weather_failure_generic fetch404 ("Paris".data) (by decide)).1

/-- C2: `save_context` persists exactly the last `min(length, 10)` turns of
the context, in original insertion order, as a full replacement of prior
persisted state; after `N > 10` chat turns the persisted context has length
exactly 10 and is the most recent 10 turns of the context, in order. -/
theorem save_persists_last_ten (model : InferenceOracle) (prompts : List Str)
    (h : 10 < prompts.length) :
    (∀ context : List Str,
        save_context context = .valid (pySliceLast 10 context)
      ∧ (pySliceLast 10 context).length = min context.length 10
      ∧ pySliceLast 10 context <:+ context)
  ∧ (run_chat_turns model ⟨[], .absent⟩ prompts).context.length = 2 * prompts.length
  ∧ (run_chat_turns model ⟨[], .absent⟩ prompts).persisted
      = .valid (pySliceLast 10 ((run_chat_turns model ⟨[], .absent⟩ prompts).context))
  ∧ (pySliceLast 10 ((run_chat_turns model ⟨[], .absent⟩ prompts).context)).length = 10
  ∧ pySliceLast 10 ((run_chat_turns model ⟨[], .absent⟩ prompts).context)
      <:+ (run_chat_turns model ⟨[], .absent⟩ prompts).context := by
  have hlen : (run_chat_turns model ⟨[], .absent⟩ prompts).context.length
      = 2 * prompts.length := by
    rw [run_chat_turns_length]
    simp
  refine ⟨fun context => ⟨rfl, ?_, pySliceLast_suffix 10 context⟩,
    hlen, ?_, ?_, pySliceLast_suffix _ _⟩
  · rw [pySliceLast_length]
    omega
  · cases prompts with
    | nil => simp at h
    | cons p ps => exact run_chat_turns_persisted model ps p ⟨[], .absent⟩
  · rw [pySliceLast_length, hlen]
    omega

/-- Witness for `save_persists_last_ten`: 11 chat turns with a constant model. -/
theorem save_persists_last_ten_witness :
    (run_chat_turns modelConst ⟨[], .absent⟩ (List.replicate 11 ("hi".data))).context.length
      = 2 * (List.replicate 11 ("hi".data) : List Str).length
  ∧ (pySliceLast 10 ((run_chat_turns modelConst ⟨[], .absent⟩ (List.replicate 11 ("hi".data))).context)).length
      = 10 :=
  ⟨(save_persists_last_ten modelConst (List.replicate 11 ("hi".data)) (by decide)).2.1,
   (save_persists_last_ten modelConst (List.replicate 11 ("hi".data)) (by decide)).2.2.2.1⟩

/-- C3: `generate_response` appends a user turn with the prompt, renders the
last-10-turns context joined by newlines, calls the model on that text with
temperature 0.7, top-k 50, top-p 0.95, sampling enabled and the caller's max
length (default 200), appends an agent turn with the raw decoded output,
persists the updated context, and returns the output; from the empty context
two consecutive chat turns give exactly 4 entries, alternating user, agent,
user, agent. -/
theorem generate_response_contract (model : InferenceOracle) (st : AgentState)
    (prompt p1 p2 : Str) (n : Nat) :
    (generate_response model st prompt n).2
        = model (genParams n) (render_for_prompt (st.context ++ ["You: ".data ++ prompt]))
  ∧ (generate_response model st prompt n).1.context
        = st.context ++ ["You: ".data ++ prompt]
          ++ ["AI: ".data ++ (generate_response model st prompt n).2]
  ∧ (generate_response model st prompt n).1.persisted
        = save_context ((generate_response model st prompt n).1.context)
  ∧ genParams n = ⟨n, 7/10, 50, 95/100, true⟩
  ∧ default_max_length = 200
  ∧ (let u1 : Str := "You: ".data ++ p1
     let r1 := model (genParams default_max_length) (render_for_prompt [u1])
     let a1 : Str := "AI: ".data ++ r1
     let u2 : Str := "You: ".data ++ p2
     let r2 := model (genParams default_max_length) (render_for_prompt [u1, a1, u2])
     let a2 : Str := "AI: ".data ++ r2
     let st2 := (generate_response model
         ((generate_response model ⟨[], .absent⟩ p1 default_max_length).1)
         p2 default_max_length).1
     st2.context = [u1, a1, u2, a2]
       ∧ st2.context.length = 4
       ∧ st2.persisted = .valid [u1, a1, u2, a2]) := by
  exact ⟨rfl, rfl, rfl, rfl, rfl, ⟨rfl, rfl, rfl⟩⟩

/-- C4 counterexample: for a file whose content is exactly 50 characters, the
result is NOT the bare 50 characters followed by the ellipsis marker — the
code prepends the `"Summary: "` label. -/
theorem summarize_bare_content_cex :
    content50.length = 50
  ∧ fsOne ("f.txt".data) = some content50
  ∧ summarize_file fsOne ("f.txt".data) ≠ content50 ++ "...".data
  ∧ summarize_file fsOne ("f.txt".data) = "Summary: ".data ++ content50 ++ "...".data := by
  refine ⟨by decide, by decide, by decide, by decide⟩

/-- C4 amended: `summarize_file` fails with the not-found message exactly when
the path does not resolve to a readable file; otherwise the result is
`"Summary: "` followed by the first 200 characters of the content and the
unconditionally appended ellipsis marker (a 50-character file yields
`"Summary: "`, those 50 characters, then `"..."`). -/
theorem summarize_contract_amended (fs : FileSystem) (path : Str) :
    (fs path = none →
        summarize_file fs path = "File '".data ++ path ++ "' not found.".data)
  ∧ (∀ content, fs path = some content →
        summarize_file fs path = "Summary: ".data ++ content.take 200 ++ "...".data
      ∧ (content.length ≤ 200 →
          summarize_file fs path = "Summary: ".data ++ content ++ "...".data)
      ∧ summarize_file fs path ≠ "File '".data ++ path ++ "' not found.".data) := by
  refine ⟨fun h => by simp [summarize_file, h], fun content h => ?_⟩
  have e1 : summarize_file fs path = "Summary: ".data ++ content.take 200 ++ "...".data := by
    simp [summarize_file, h]
  refine ⟨e1, fun hle => ?_, ?_⟩
  · rw [e1, List.take_of_length_le hle]
  · rw [e1]
    intro hEq
    have h2 : some 'S' = some 'F' := congrArg List.head? hEq
    exact absurd h2 (by decide)

/-- Witness for `summarize_contract_amended` at a missing and a present file. -/
theorem summarize_contract_amended_witness :
    summarize_file fsOne ("g.txt".data) = "File '".data ++ "g.txt".data ++ "' not found.".data
  ∧ summarize_file fsOne ("f.txt".data) = "Summary: ".data ++ content50 ++ "...".data :=
  ⟨(summarize_contract_amended fsOne ("g.txt".data)).1 (by decide),
   ((summarize_contract_amended fsOne ("f.txt".data)).2 content50 (by decide)).2.1 (by decide)⟩

/-- C7: non-chat turns — a `task: `-marked input (routed to `perform_task`)
and an empty input (re-prompt) — leave both the in-memory context and the
persisted context state unchanged. -/
theorem non_chat_turns_preserve_state (model : InferenceOracle) (fs : FileSystem)
    (fetch : WeatherOracle) (speech : Str) (st : AgentState) (input0 : Str)
    (h : input0 = [] ∨ ("task: ".data).isPrefixOf input0 = true) :
    (console_turn model fs fetch speech st input0).1 = st
  ∧ (console_turn model fs fetch speech st input0).1.context = st.context
  ∧ (console_turn model fs fetch speech st input0).1.persisted = st.persisted := by
  have main : (console_turn model fs fetch speech st input0).1 = st := by
    rcases h with h | h
    · subst h
      rfl
    · have h2 := List.isPrefixOf_iff_prefix.mp h
      have h3 := h2.length_le
      have h4 : (("task: ".data : Str)).length = 6 := rfl
      have hlen : 6 ≤ input0.length := by omega
      have emap : (pyLower input0).length = input0.length := by
        simp [pyLower]
      have hexit : ¬ pyLower input0 = "exit".data := by
        intro hEq
        have heq2 : (pyLower input0).length = (("exit".data : Str)).length := by rw [hEq]
        have e2 : (("exit".data : Str)).length = 4 := rfl
        omega
      have hvoice : ¬ pyLower input0 = "voice".data := by
        intro hEq
        have heq2 : (pyLower input0).length = (("voice".data : Str)).length := by rw [hEq]
        have e2 : (("voice".data : Str)).length = 5 := rfl
        omega
      have hne : ¬ input0 = [] := by
        intro hEq
        subst hEq
        simp at hlen
      simp [console_turn, hexit, hvoice, hne, h]
  exact ⟨main, by rw [main], by rw [main]⟩

/-- Witness for `non_chat_turns_preserve_state`: a task turn and an empty turn. -/
theorem non_chat_turns_preserve_state_witness :
    (console_turn modelConst fsOne fetch404 [] ⟨["old".data], .absent⟩
        ("task: summarize f.txt".data)).1 = (⟨["old".data], .absent⟩ : AgentState)
  ∧ (console_turn modelConst fsOne fetch404 [] ⟨["old".data], .absent⟩ []).1
      = (⟨["old".data], .absent⟩ : AgentState) :=
  ⟨(non_chat_turns_preserve_state modelConst fsOne fetch404 [] ⟨["old".data], .absent⟩
      ("task: summarize f.txt".data) (Or.inr (by decide))).1,
   (non_chat_turns_preserve_state modelConst fsOne fetch404 [] ⟨["old".data], .absent⟩
      [] (Or.inl rfl)).1⟩

/-- C8 counterexample: the in-memory context is never trimmed.  After 6 chat
turns (a persistence event has just occurred) the in-memory context holds 12
entries, after 7 turns 14, after 8 turns 16 — it exceeds 10 permanently, not
transiently. -/
theorem context_never_trimmed_cex :
    (run_chat_turns modelConst ⟨[], .absent⟩ (List.replicate 6 ("hi".data))).context.length = 12
  ∧ (run_chat_turns modelConst ⟨[], .absent⟩ (List.replicate 6 ("hi".data))).persisted
      = save_context ((run_chat_turns modelConst ⟨[], .absent⟩ (List.replicate 6 ("hi".data))).context)
  ∧ (run_chat_turns modelConst ⟨[], .absent⟩ (List.replicate 7 ("hi".data))).context.length = 14
  ∧ (run_chat_turns modelConst ⟨[], .absent⟩ (List.replicate 8 ("hi".data))).context.length = 16 := by
  refine ⟨by decide, rfl, by decide, by decide⟩

/-- C8 amended: the persisted form never exceeds the last 10 turns and every
persistence event writes at most 10 entries; the in-memory context, however,
is never trimmed — each chat turn grows it by exactly 2 entries, so it can
exceed 10 permanently. -/
theorem context_bounds_amended (model : InferenceOracle) (st : AgentState)
    (p : Str) (prompts : List Str) :
    (∀ context : List Str,
        save_context context = .valid (pySliceLast 10 context)
      ∧ (pySliceLast 10 context).length ≤ 10
      ∧ pySliceLast 10 context <:+ context)
  ∧ (run_chat_turns model st (p :: prompts)).persisted
      = .valid (pySliceLast 10 ((run_chat_turns model st (p :: prompts)).context))
  ∧ (pySliceLast 10 ((run_chat_turns model st (p :: prompts)).context)).length ≤ 10
  ∧ (run_chat_turns model st (p :: prompts)).context.length
      = st.context.length + 2 * (p :: prompts).length := by
  refine ⟨fun context => ⟨rfl, ?_, pySliceLast_suffix _ _⟩, ?_, ?_,
    run_chat_turns_length model (p :: prompts) st⟩
  · rw [pySliceLast_length]
    omega
  · exact run_chat_turns_persisted model prompts p st
  · rw [pySliceLast_length]
    omega
